import Mathlib

/-!
Verification of the idle & timer reconciliation engine of the
employee-time-tracker desktop application.

The host-process side (`IdleManager` in `electron/idleManager.js`, loaded by
`electron/main.js`) is embedded as pure functions over an explicit store
record, with an explicit write trace distinguishing ordinary `store.set`
writes from synchronous `forcedWrite`s.  Wall-clock time (`Date.now()`) and
monotonic time (`process.uptime() * 1000`) are passed in as explicit `Int`
parameters.  The renderer side (`useTimer.ts`) idle accumulator is embedded
as a pure step function over an accumulator state, and the backend stop
endpoint's idle validation (`backend/index.js`) as a pure clamping function.
-/

namespace ETT

/-- Kind of a persistence write: `ordinary` models buffered `store.set`,
`forced` models the synchronous `forcedWrite` (`fs.writeFileSync`). -/
inductive WriteKind where
  | ordinary
  | forced
deriving DecidableEq

/-- The persisted record of the `electron-store` instance named
`idle-tracker` (see the `defaults` passed to its constructor). -/
structure StoreData where
  instanceId : Option String
  lastActiveAt : Option Int
  lastActiveAtMonotonic : Option Int
  timerRunning : Bool
  currentLogId : Option Int
  taskId : Option Int
  lastEventSource : Option String
  processStartTime : Option Int
deriving DecidableEq

/-- The store defaults from the `IdleManager` constructor. -/
def StoreData.defaults : StoreData :=
  { instanceId := none
    lastActiveAt := none
    lastActiveAtMonotonic := none
    timerRunning := false
    currentLogId := none
    taskId := none
    lastEventSource := none
    processStartTime := none }

/-- One write to the persistent store: its kind and the store contents
after it completed. -/
structure WriteOp where
  kind : WriteKind
  after : StoreData
deriving DecidableEq

/-- In-memory state of the `IdleManager`: the store, whether the 1 Hz
heartbeat interval is currently scheduled, and the process start time
captured in the constructor. -/
structure IdleManager where
  store : StoreData
  heartbeatActive : Bool
  processStartTime : Int
deriving DecidableEq

/-- The payload built in `reconcileTimestamps` and sent over the
`timer:idle-event` channel. -/
structure IdleEvent where
  idleSeconds : Nat
  source : String
  startedAt : Int
  endedAt : Int
  logId : Option Int
  gapDetected : Bool
  clockTampering : Bool
deriving DecidableEq

/-- JavaScript falsiness of an optional numeric store field: `null`
(modelled `none`) and `0` are falsy, as in the guard
`if (!lastActiveAt || !lastActiveAtMonotonic)`. -/
def jsFalsyInt : Option Int → Bool
  | none => true
  | some v => v == 0

/-- JavaScript falsiness of an optional string store field: `null` and the
empty string are falsy (used by `if (!instanceId)` and `x || dflt`). -/
def jsFalsyStr : Option String → Bool
  | none => true
  | some s => s == ""

/-- JavaScript `o || dflt` on an optional string. -/
def jsOrStr (o : Option String) (dflt : String) : String :=
  match o with
  | none => dflt
  | some s => if s == "" then dflt else s

/-- The string literal written by `stopTracking`'s forced write. -/
def timerStoppedSource : String := "timer-stopped"

/-- The fallback source used when the stored `lastEventSource` is falsy. -/
def unknownSource : String := "unknown"

/-- `updateHeartbeat()`: two ordinary `store.set` writes of the dual
timestamps. -/
def updateHeartbeat (m : IdleManager) (now monoNow : Int) :
    IdleManager × List WriteOp :=
  let s1 := { m.store with lastActiveAt := some now }
  let s2 := { s1 with lastActiveAtMonotonic := some monoNow }
  ({ m with store := s2 },
   [⟨WriteKind.ordinary, s1⟩, ⟨WriteKind.ordinary, s2⟩])

/-- `startTracking({logId, taskId})`: `updateHeartbeat()` followed by four
ordinary `store.set` writes, then the 1 Hz heartbeat interval is started. -/
def startTracking (m : IdleManager) (logId taskId : Int) (now monoNow : Int) :
    IdleManager × List WriteOp :=
  let hb := updateHeartbeat m now monoNow
  let s1 := { hb.1.store with timerRunning := true }
  let s2 := { s1 with currentLogId := some logId }
  let s3 := { s2 with taskId := some taskId }
  let s4 := { s3 with processStartTime := some m.processStartTime }
  ({ hb.1 with store := s4, heartbeatActive := true },
   hb.2 ++ [⟨WriteKind.ordinary, s1⟩, ⟨WriteKind.ordinary, s2⟩,
            ⟨WriteKind.ordinary, s3⟩, ⟨WriteKind.ordinary, s4⟩])

/-- `stopTracking()`: clears the heartbeat interval and performs one
`forcedWrite({timerRunning:false, currentLogId:null, taskId:null,
lastEventSource:'timer-stopped'})`. -/
def stopTracking (m : IdleManager) : IdleManager × List WriteOp :=
  let s := { m.store with
             timerRunning := false
             currentLogId := none
             taskId := none
             lastEventSource := some timerStoppedSource }
  ({ m with store := s, heartbeatActive := false }, [⟨WriteKind.forced, s⟩])

/-- `reconcileTimestamps()`: the core reconciliation algorithm.  Returns the
updated manager, the writes performed, and the idle event sent to the
renderer (at most one, `none` when nothing was emitted). -/
def reconcileTimestamps (m : IdleManager) (now monoNow : Int) :
    IdleManager × List WriteOp × Option IdleEvent :=
  if m.store.timerRunning = false then (m, [], none)
  else if jsFalsyInt m.store.lastActiveAt || jsFalsyInt m.store.lastActiveAtMonotonic then
    (m, [], none)
  else
    let lastActiveAt := m.store.lastActiveAt.getD 0
    let lastMono := m.store.lastActiveAtMonotonic.getD 0
    let systemGap := now - lastActiveAt
    let monotonicGap := monoNow - lastMono
    let gapDifference := (systemGap - monotonicGap).natAbs
    let trustedGap := monotonicGap
    if 60000 < trustedGap then
      let ev : IdleEvent :=
        { idleSeconds := trustedGap.toNat / 1000
          source := jsOrStr m.store.lastEventSource unknownSource
          startedAt := lastActiveAt
          endedAt := now
          logId := m.store.currentLogId
          gapDetected := true
          clockTampering := decide (30000 < gapDifference) }
      let st := stopTracking m
      (st.1, st.2, some ev)
    else
      let hb := updateHeartbeat m now monoNow
      (hb.1, hb.2, none)

/-- `initializeInstanceId()` run in the `IdleManager` constructor: generate
and persist a fresh UUID only when the stored one is falsy.  The fresh
UUID that `uuidv4()` would produce is passed in explicitly. -/
def initializeInstanceId (fresh : String) (s : StoreData) : StoreData :=
  if jsFalsyStr s.instanceId then { s with instanceId := some fresh } else s

/-- `getInstanceId()`: plain read of the persisted instance id. -/
def getInstanceId (s : StoreData) : Option String := s.instanceId

/-- Renderer-side idle accumulator state of `useTimer.ts`:
`accumulatedIdleRef`, `lastSystemIdleRef`, `ignoreNextSoftIdleResetRef`,
the `currentSystemIdle` and `idleSeconds` React states, and the value last
written to local storage by `persistIdleState` (`none` when nothing was
persisted yet for this session). -/
structure AccumState where
  accumulatedIdle : Nat
  lastSystemIdle : Nat
  ignoreNextSoftIdleReset : Bool
  currentSystemIdle : Nat
  idleSeconds : Nat
  persisted : Option Nat
deriving DecidableEq

/-- Accumulator state right after a timer start: all counters zeroed. -/
def AccumState.initial : AccumState :=
  { accumulatedIdle := 0
    lastSystemIdle := 0
    ignoreNextSoftIdleReset := false
    currentSystemIdle := 0
    idleSeconds := 0
    persisted := some 0 }

/-- The `onIdleTimeUpdate` soft-idle handler in `useTimer.ts`: fold the
previous sample into the accumulator on a reset when it reached the 60 s
threshold and the suppression flag is not armed, then recompute the
displayed total. -/
def onIdleTimeUpdate (st : AccumState) (systemIdleSeconds : Nat) : AccumState :=
  let folded :=
    if systemIdleSeconds < st.lastSystemIdle then
      if 60 ≤ st.lastSystemIdle then
        if st.ignoreNextSoftIdleReset = false then
          { st with
            accumulatedIdle := st.accumulatedIdle + st.lastSystemIdle
            persisted := some (st.accumulatedIdle + st.lastSystemIdle) }
        else st
      else st
    else st
  let currentSoftIdle := if 60 ≤ systemIdleSeconds then systemIdleSeconds else 0
  { folded with
    lastSystemIdle := systemIdleSeconds
    currentSystemIdle := systemIdleSeconds
    idleSeconds := folded.accumulatedIdle + currentSoftIdle }

/-- The `onIdleEvent` hard-idle handler in `useTimer.ts`.  Returns the new
state and whether the `idle >= 60` branch was taken (that branch persists
the accumulator and arms the 2 s suppression flag; the other branch does
neither). -/
def onIdleEvent (st : AccumState) (ev : IdleEvent) : AccumState × Bool :=
  if 60 ≤ ev.idleSeconds then
    ({ st with
       accumulatedIdle := st.accumulatedIdle + ev.idleSeconds
       idleSeconds := st.accumulatedIdle + ev.idleSeconds
       persisted := some (st.accumulatedIdle + ev.idleSeconds)
       ignoreNextSoftIdleReset := true }, true)
  else
    ({ st with
       accumulatedIdle := st.accumulatedIdle + ev.idleSeconds
       idleSeconds := st.accumulatedIdle + ev.idleSeconds }, false)

/-- The idle figure `handleStopTimer` submits with the stop request:
`const idle_seconds = idleSeconds;` — the displayed value, unmodified. -/
def handleStopTimerIdleSubmitted (st : AccumState) : Int := (st.idleSeconds : Int)

/-- The idle-seconds validation of the backend `POST /api/time-logs/stop`
endpoint (`backend/index.js`): reject negatives, cap to the computed
session duration.  (`Number(idle_seconds) || 0` is modelled by taking the
submitted value as an `Int`.) -/
def stopTimerIdleClamp (durationSeconds idleSubmitted : Int) : Int :=
  let idle := idleSubmitted
  let idle := if idle < 0 then 0 else idle
  if durationSeconds < idle then durationSeconds else idle

/-! ## Evaluation helpers for `reconcileTimestamps` -/

/-- With a running timer, truthy timestamps and a monotonic gap above the
60 s threshold, `reconcileTimestamps` closes the session via `stopTracking`
and returns the idle event built in that branch. -/
theorem reconcileTimestamps_large_eval
    (m : IdleManager) (now monoNow la lam : Int)
    (hrun : m.store.timerRunning = true)
    (hla : m.store.lastActiveAt = some la) (hla0 : la ≠ 0)
    (hlam : m.store.lastActiveAtMonotonic = some lam) (hlam0 : lam ≠ 0)
    (hgap : 60000 < monoNow - lam) :
    reconcileTimestamps m now monoNow =
      ((stopTracking m).1, (stopTracking m).2,
       some { idleSeconds := (monoNow - lam).toNat / 1000
              source := jsOrStr m.store.lastEventSource unknownSource
              startedAt := la
              endedAt := now
              logId := m.store.currentLogId
              gapDetected := true
              clockTampering := decide (30000 < ((now - la) - (monoNow - lam)).natAbs) }) := by
  have h1 : (la == 0) = false := by simp [hla0]
  have h2 : (lam == 0) = false := by simp [hlam0]
  simp [reconcileTimestamps, hrun, hla, hlam, jsFalsyInt, h1, h2, hgap]

/-- With a running timer, truthy timestamps and a monotonic gap at or below
the 60 s threshold, `reconcileTimestamps` refreshes the heartbeat and emits
nothing. -/
theorem reconcileTimestamps_small_eval
    (m : IdleManager) (now monoNow la lam : Int)
    (hrun : m.store.timerRunning = true)
    (hla : m.store.lastActiveAt = some la) (hla0 : la ≠ 0)
    (hlam : m.store.lastActiveAtMonotonic = some lam) (hlam0 : lam ≠ 0)
    (hgap : monoNow - lam ≤ 60000) :
    reconcileTimestamps m now monoNow =
      ((updateHeartbeat m now monoNow).1, (updateHeartbeat m now monoNow).2, none) := by
  have h1 : (la == 0) = false := by simp [hla0]
  have h2 : (lam == 0) = false := by simp [hlam0]
  have h3 : ¬ (60000 < monoNow - lam) := not_lt.mpr hgap
  simp [reconcileTimestamps, hrun, hla, hlam, jsFalsyInt, h1, h2, h3]

/-! ## Concrete states used to instantiate the theorems -/

/-- A concrete running manager: heartbeat last seen at wall-clock 1000 ms /
monotonic 500 ms, log id 7, no power event recorded yet (the store default
`lastEventSource = null`). -/
def mgrRun : IdleManager :=
  { store := { StoreData.defaults with
               timerRunning := true
               lastActiveAt := some 1000
               lastActiveAtMonotonic := some 500
               currentLogId := some 7 }
    heartbeatActive := true
    processStartTime := 0 }

/-! ## Claim theorems -/

/-- C1, counterexample: at a concrete record with `timerRunning == true`,
valid timestamps, a monotonic gap of 69 500 ms > 60 000 ms, and the stored
`lastEventSource` still at its default `null`, `reconcile()` does emit an
event, but its `source` is the fallback string `"unknown"`, not the stored
`lastEventSource` — so the claim's field equation fails as stated. -/
theorem reconcile_large_gap_source_cex :
    (reconcileTimestamps mgrRun 100000 70000).2.2.isSome = true
    ∧ ¬ ((reconcileTimestamps mgrRun 100000 70000).2.2.map IdleEvent.source
          = mgrRun.store.lastEventSource) := by
  exact ⟨by decide, by decide⟩

/-- C1 (amended): for every persisted record with `timerRunning == true` and
valid (truthy) timestamps, if the monotonic gap exceeds 60 000 ms then
`reconcile()` emits exactly one `IdleEvent` whose `idleSeconds` is
`floor(monotonicGap/1000)`, whose `source` is the stored `lastEventSource`
when that is a non-empty string and `"unknown"` otherwise, whose
`startedAt` is the stored `lastActiveAt`, whose `endedAt` is the current
wall-clock time, whose `logId` is the stored `currentLogId`, and whose
`gapDetected` is `true`; afterwards the persisted record has
`timerRunning == false`. -/
theorem reconcile_large_gap_event_fields
    (m : IdleManager) (now monoNow la lam : Int)
    (hrun : m.store.timerRunning = true)
    (hla : m.store.lastActiveAt = some la) (hla0 : la ≠ 0)
    (hlam : m.store.lastActiveAtMonotonic = some lam) (hlam0 : lam ≠ 0)
    (hgap : 60000 < monoNow - lam) :
    (reconcileTimestamps m now monoNow).2.2 =
      some { idleSeconds := (monoNow - lam).toNat / 1000
             source := jsOrStr m.store.lastEventSource unknownSource
             startedAt := la
             endedAt := now
             logId := m.store.currentLogId
             gapDetected := true
             clockTampering := decide (30000 < ((now - la) - (monoNow - lam)).natAbs) }
    ∧ (reconcileTimestamps m now monoNow).1.store.timerRunning = false := by
  rw [reconcileTimestamps_large_eval m now monoNow la lam hrun hla hla0 hlam hlam0 hgap]
  exact ⟨rfl, by simp [stopTracking]⟩

/-- C1 witness: the amended theorem applied to the concrete running manager
with a 69 500 ms monotonic gap. -/
theorem reconcile_large_gap_event_fields_wit :
    (reconcileTimestamps mgrRun 100000 70000).2.2 =
      some { idleSeconds := 69
             source := unknownSource
             startedAt := 1000
             endedAt := 100000
             logId := some 7
             gapDetected := true
             clockTampering := false }
    ∧ (reconcileTimestamps mgrRun 100000 70000).1.store.timerRunning = false :=
  reconcile_large_gap_event_fields mgrRun 100000 70000 1000 500
    rfl rfl (by decide) rfl (by decide) (by decide)

/-- C2: for every persisted record with `timerRunning == true` and valid
timestamps, if the monotonic gap is at most 60 000 ms then `reconcile()`
emits no `IdleEvent`, refreshes `lastActiveAt`/`lastActiveAtMonotonic` to
the current wall-clock and monotonic times, and leaves
`timerRunning == true`. -/
theorem reconcile_small_gap_keeps_running
    (m : IdleManager) (now monoNow la lam : Int)
    (hrun : m.store.timerRunning = true)
    (hla : m.store.lastActiveAt = some la) (hla0 : la ≠ 0)
    (hlam : m.store.lastActiveAtMonotonic = some lam) (hlam0 : lam ≠ 0)
    (hgap : monoNow - lam ≤ 60000) :
    (reconcileTimestamps m now monoNow).2.2 = none
    ∧ (reconcileTimestamps m now monoNow).1.store.lastActiveAt = some now
    ∧ (reconcileTimestamps m now monoNow).1.store.lastActiveAtMonotonic = some monoNow
    ∧ (reconcileTimestamps m now monoNow).1.store.timerRunning = true := by
  rw [reconcileTimestamps_small_eval m now monoNow la lam hrun hla hla0 hlam hlam0 hgap]
  simp [updateHeartbeat, hrun]

/-- C2 witness: the theorem applied to the concrete running manager with a
500 ms monotonic gap. -/
theorem reconcile_small_gap_keeps_running_wit :
    (reconcileTimestamps mgrRun 1100 1000).2.2 = none
    ∧ (reconcileTimestamps mgrRun 1100 1000).1.store.lastActiveAt = some 1100
    ∧ (reconcileTimestamps mgrRun 1100 1000).1.store.lastActiveAtMonotonic = some 1000
    ∧ (reconcileTimestamps mgrRun 1100 1000).1.store.timerRunning = true :=
  reconcile_small_gap_keeps_running mgrRun 1100 1000 1000 500
    rfl rfl (by decide) rfl (by decide) (by decide)

/-- C4: for every pair of gaps, the `clockTampering` flag of the emitted
event is `true` iff `|systemGap - monotonicGap| > 30 000 ms`, and the
decision to emit at all is a function of the monotonic gap alone (an event
is emitted iff `monotonicGap > 60 000 ms`), i.e. clock tampering is not a
failure and the monotonic gap is the trusted elapsed-time measure. -/
theorem reconcile_clock_tampering_iff
    (m : IdleManager) (now monoNow la lam : Int)
    (hrun : m.store.timerRunning = true)
    (hla : m.store.lastActiveAt = some la) (hla0 : la ≠ 0)
    (hlam : m.store.lastActiveAtMonotonic = some lam) (hlam0 : lam ≠ 0) :
    ((reconcileTimestamps m now monoNow).2.2.isSome = decide (60000 < monoNow - lam))
    ∧ ((reconcileTimestamps m now monoNow).2.2.map IdleEvent.clockTampering
        = if 60000 < monoNow - lam
          then some (decide (30000 < ((now - la) - (monoNow - lam)).natAbs))
          else none) := by
  by_cases hgap : 60000 < monoNow - lam
  · rw [reconcileTimestamps_large_eval m now monoNow la lam hrun hla hla0 hlam hlam0 hgap]
    simp [hgap]
  · rw [reconcileTimestamps_small_eval m now monoNow la lam hrun hla hla0 hlam hlam0
        (not_lt.mp hgap)]
    simp [hgap]

/-- C4 witness: the theorem applied to the concrete running manager at a
wall-clock gap of 999 000 ms against a monotonic gap of 69 500 ms, a
divergence of 929 500 ms > 30 000 ms, so the emitted event carries
`clockTampering = true`. -/
theorem reconcile_clock_tampering_iff_wit :
    ((reconcileTimestamps mgrRun 1000000 70000).2.2.isSome
        = decide (60000 < (70000 : Int) - 500))
    ∧ ((reconcileTimestamps mgrRun 1000000 70000).2.2.map IdleEvent.clockTampering
        = if 60000 < (70000 : Int) - 500
          then some (decide
            (30000 < (((1000000 : Int) - 1000) - ((70000 : Int) - 500)).natAbs))
          else none) :=
  reconcile_clock_tampering_iff mgrRun 1000000 70000 1000 500
    rfl rfl (by decide) rfl (by decide)

/-- C3: the per-sample soft-idle merge step folds the previous sample into
the accumulator exactly when the new sample is lower, the previous sample
reached the 60 s threshold, and the suppression flag is not armed; after
every sample the displayed total is the accumulator plus the current sample
when that sample is at least 60, else plus 0; and the sample sequence
`[0, 5, 30, 65, 70, 2, 0]` from the initial state yields a final
accumulator of exactly 70. -/
theorem soft_idle_merge_spec (st : AccumState) (sample : Nat) :
    ((onIdleTimeUpdate st sample).accumulatedIdle
      = if sample < st.lastSystemIdle ∧ 60 ≤ st.lastSystemIdle
           ∧ st.ignoreNextSoftIdleReset = false
        then st.accumulatedIdle + st.lastSystemIdle
        else st.accumulatedIdle)
    ∧ ((onIdleTimeUpdate st sample).idleSeconds
      = (onIdleTimeUpdate st sample).accumulatedIdle
        + (if 60 ≤ sample then sample else 0))
    ∧ ((([0, 5, 30, 65, 70, 2, 0] : List Nat).foldl onIdleTimeUpdate
          AccumState.initial).accumulatedIdle = 70) := by
  refine ⟨?_, rfl, by decide⟩
  simp only [onIdleTimeUpdate]
  by_cases h1 : sample < st.lastSystemIdle
  · by_cases h2 : 60 ≤ st.lastSystemIdle
    · by_cases h3 : st.ignoreNextSoftIdleReset = false
      · simp [h1, h2, h3]
      · simp [h1, h2, h3]
    · simp [h1, h2]
  · simp [h1]

/-- An accumulator state holding 200 000 s (more than 55 hours) of idle
time, as displayed when the user stops the timer. -/
def accumOver48h : AccumState :=
  { accumulatedIdle := 200000
    lastSystemIdle := 0
    ignoreNextSoftIdleReset := false
    currentSystemIdle := 0
    idleSeconds := 200000
    persisted := some 200000 }

/-- C5: `handleStopTimer` submits the displayed idle figure unmodified, and
the backend stop endpoint clamps only to `[0, durationSeconds]` — at a
session of 300 000 s with 200 000 s of idle, the value persisted as
authoritative is 200 000 s, which exceeds the 48-hour cap (172 800 s) the
claim and the backend's own documentation require. -/
theorem stop_idle_missing_48h_cap :
    handleStopTimerIdleSubmitted accumOver48h = 200000
    ∧ stopTimerIdleClamp 300000 (handleStopTimerIdleSubmitted accumOver48h) = 200000
    ∧ 172800 < stopTimerIdleClamp 300000 (handleStopTimerIdleSubmitted accumOver48h) := by
  decide

/-- A freshly constructed manager over the store defaults. -/
def mgrFresh : IdleManager :=
  { store := StoreData.defaults
    heartbeatActive := false
    processStartTime := 111 }

/-- C6, counterexample: a concrete `startTracking` call performs zero
forced writes — not the one `forcedWrite` the claim states; all of its
store writes are ordinary buffered `store.set` calls. -/
theorem startTracking_no_forced_write_cex :
    ((startTracking mgrFresh 5 9 2000 1500).2.countP
        (fun w => w.kind == WriteKind.forced) = 0)
    ∧ ¬ ((startTracking mgrFresh 5 9 2000 1500).2.countP
        (fun w => w.kind == WriteKind.forced) = 1) := by
  decide

/-- C6 (amended): `startTracking({logId, taskId})` performs only ordinary
(non-forced) `store.set` writes — first the heartbeat timestamps, then
`timerRunning == true`, `currentLogId == logId`, `taskId`, and
`processStartTime` — and only then starts the 1 Hz heartbeat loop of
ordinary writes of `lastActiveAt`/`lastActiveAtMonotonic`. -/
theorem startTracking_ordinary_writes
    (m : IdleManager) (logId taskId now monoNow : Int) :
    ((startTracking m logId taskId now monoNow).2.all
        (fun w => w.kind == WriteKind.ordinary) = true)
    ∧ (startTracking m logId taskId now monoNow).1.store.timerRunning = true
    ∧ (startTracking m logId taskId now monoNow).1.store.currentLogId = some logId
    ∧ (startTracking m logId taskId now monoNow).1.store.taskId = some taskId
    ∧ (startTracking m logId taskId now monoNow).1.store.processStartTime
        = some m.processStartTime
    ∧ (startTracking m logId taskId now monoNow).1.store.lastActiveAt = some now
    ∧ (startTracking m logId taskId now monoNow).1.store.lastActiveAtMonotonic
        = some monoNow
    ∧ (startTracking m logId taskId now monoNow).1.heartbeatActive = true := by
  simp [startTracking, updateHeartbeat]

/-- The event-source string recorded by a lock-screen power event. -/
def lockSource : String := "lock"

/-- A sample persisted per-install instance id. -/
def iidSample : String := "device-iid"

/-- A running manager whose last recorded power event was a screen lock. -/
def mgrLocked : IdleManager :=
  { store := { instanceId := some iidSample
               lastActiveAt := some 10
               lastActiveAtMonotonic := some 20
               timerRunning := true
               currentLogId := some 3
               taskId := some 4
               lastEventSource := some lockSource
               processStartTime := some 1 }
    heartbeatActive := true
    processStartTime := 1 }

/-- C7, counterexample: `stopTracking()` does not leave `lastEventSource`
unchanged — on a record whose `lastEventSource` is `"lock"`, the forced
write overwrites it with `"timer-stopped"`. -/
theorem stopTracking_overwrites_lastEventSource_cex :
    ¬ ((stopTracking mgrLocked).1.store.lastEventSource
        = mgrLocked.store.lastEventSource) := by
  decide

/-- C7 (amended): `stopTracking()` cancels the heartbeat loop and performs
exactly one `forcedWrite` that sets `timerRunning` to `false`,
`currentLogId` to `null`, `taskId` to `null`, and `lastEventSource` to
`"timer-stopped"`, leaving `instanceId`, `lastActiveAt`,
`lastActiveAtMonotonic`, and `processStartTime` unchanged. -/
theorem stopTracking_frame (m : IdleManager) :
    (stopTracking m).1.heartbeatActive = false
    ∧ (stopTracking m).2.length = 1
    ∧ ((stopTracking m).2.all (fun w => w.kind == WriteKind.forced) = true)
    ∧ (stopTracking m).1.store.timerRunning = false
    ∧ (stopTracking m).1.store.currentLogId = none
    ∧ (stopTracking m).1.store.taskId = none
    ∧ (stopTracking m).1.store.lastEventSource = some timerStoppedSource
    ∧ (stopTracking m).1.store.instanceId = m.store.instanceId
    ∧ (stopTracking m).1.store.lastActiveAt = m.store.lastActiveAt
    ∧ (stopTracking m).1.store.lastActiveAtMonotonic = m.store.lastActiveAtMonotonic
    ∧ (stopTracking m).1.store.processStartTime = m.store.processStartTime := by
  simp [stopTracking]

/-- C8: `reconcile()` is a no-op — the manager is returned unchanged, no
write is performed and no event is emitted — whenever the persisted record
has `timerRunning == false` or a falsy `lastActiveAt` or
`lastActiveAtMonotonic`; consequently a second call right after, at any
later pair of clock readings, is a no-op as well. -/
theorem reconcile_noop_idempotent
    (m : IdleManager) (now monoNow now2 monoNow2 : Int)
    (h : m.store.timerRunning = false
         ∨ jsFalsyInt m.store.lastActiveAt = true
         ∨ jsFalsyInt m.store.lastActiveAtMonotonic = true) :
    reconcileTimestamps m now monoNow = (m, [], none)
    ∧ reconcileTimestamps (reconcileTimestamps m now monoNow).1 now2 monoNow2
        = ((reconcileTimestamps m now monoNow).1, [], none) := by
  have key : ∀ a b : Int, reconcileTimestamps m a b = (m, [], none) := by
    intro a b
    rcases h with h | h | h
    · simp [reconcileTimestamps, h]
    · by_cases hrun : m.store.timerRunning = false
      · simp [reconcileTimestamps, hrun]
      · simp [reconcileTimestamps, hrun, h]
    · by_cases hrun : m.store.timerRunning = false
      · simp [reconcileTimestamps, hrun]
      · simp [reconcileTimestamps, hrun, h]
  refine ⟨key now monoNow, ?_⟩
  rw [key now monoNow]
  exact key now2 monoNow2

/-- A manager with no running session (the store defaults). -/
def mgrStopped : IdleManager :=
  { store := StoreData.defaults
    heartbeatActive := false
    processStartTime := 0 }

/-- C8 witness: the theorem applied to a manager with no running session,
for two consecutive calls at distinct clock readings. -/
theorem reconcile_noop_idempotent_wit :
    reconcileTimestamps mgrStopped 10 20 = (mgrStopped, [], none)
    ∧ reconcileTimestamps (reconcileTimestamps mgrStopped 10 20).1 30 40
        = ((reconcileTimestamps mgrStopped 10 20).1, [], none) :=
  reconcile_noop_idempotent mgrStopped 10 20 30 40 (Or.inl rfl)

/-- C9: `getInstanceId()` after construction returns the already-persisted
id when the store held a truthy one and the freshly generated UUID
otherwise, and re-running the constructor's `initializeInstanceId` over the
resulting store contents (a simulated process restart, with a different
fresh UUID available) changes nothing — the id is generated at most once
and every later call returns the same persisted value. -/
theorem getInstanceId_stable (s : StoreData) (f1 f2 : String) (h1 : f1 ≠ "") :
    getInstanceId (initializeInstanceId f1 s)
      = (if jsFalsyStr s.instanceId then some f1 else s.instanceId)
    ∧ initializeInstanceId f2 (initializeInstanceId f1 s) = initializeInstanceId f1 s
    ∧ getInstanceId (initializeInstanceId f2 (initializeInstanceId f1 s))
        = getInstanceId (initializeInstanceId f1 s) := by
  have hf1 : (f1 == "") = false := by simp [h1]
  have stable : initializeInstanceId f2 (initializeInstanceId f1 s)
      = initializeInstanceId f1 s := by
    by_cases h : jsFalsyStr s.instanceId = true
    · have hpos : initializeInstanceId f1 s = { s with instanceId := some f1 } := by
        simp [initializeInstanceId, h]
      rw [hpos]
      simp [initializeInstanceId, jsFalsyStr, hf1]
    · have hneg : initializeInstanceId f1 s = s := by
        simp [initializeInstanceId, h]
      rw [hneg]
      simp [initializeInstanceId, h]
  refine ⟨?_, stable, by rw [stable]⟩
  by_cases h : jsFalsyStr s.instanceId = true
  · simp [initializeInstanceId, getInstanceId, h]
  · simp [initializeInstanceId, getInstanceId, h]

/-- A fresh UUID as generated on first use. -/
def uuidFirst : String := "uuid-first"

/-- A different UUID that a later process launch would generate. -/
def uuidLater : String := "uuid-later"

/-- C9 witness: the theorem applied to an initially empty store with two
distinct candidate UUIDs: the first is persisted and survives the
simulated restart. -/
theorem getInstanceId_stable_wit :
    getInstanceId (initializeInstanceId uuidFirst StoreData.defaults)
      = (if jsFalsyStr StoreData.defaults.instanceId then some uuidFirst
         else StoreData.defaults.instanceId)
    ∧ initializeInstanceId uuidLater (initializeInstanceId uuidFirst StoreData.defaults)
        = initializeInstanceId uuidFirst StoreData.defaults
    ∧ getInstanceId
        (initializeInstanceId uuidLater (initializeInstanceId uuidFirst StoreData.defaults))
        = getInstanceId (initializeInstanceId uuidFirst StoreData.defaults) :=
  getInstanceId_stable StoreData.defaults uuidFirst uuidLater (by decide)

/-- C10: every `IdleEvent` emitted by `reconcileTimestamps` has
`idleSeconds ≥ 60` (the gap must exceed 60 000 ms and `idleSeconds` is its
floor in seconds), so for every such event the renderer's `onIdleEvent`
handler takes its hard-idle (`idle >= 60`) branch — the `< 60` branch is
unreachable for engine-emitted events, whatever the accumulator state. -/
theorem engine_events_are_hard_idle
    (m : IdleManager) (now monoNow la lam : Int) (st : AccumState)
    (hrun : m.store.timerRunning = true)
    (hla : m.store.lastActiveAt = some la) (hla0 : la ≠ 0)
    (hlam : m.store.lastActiveAtMonotonic = some lam) (hlam0 : lam ≠ 0)
    (hgap : 60000 < monoNow - lam) :
    ((reconcileTimestamps m now monoNow).2.2.map
        (fun ev => decide (60 ≤ ev.idleSeconds)) = some true)
    ∧ ((reconcileTimestamps m now monoNow).2.2.map
        (fun ev => (onIdleEvent st ev).2) = some true) := by
  rw [reconcileTimestamps_large_eval m now monoNow la lam hrun hla hla0 hlam hlam0 hgap]
  have h1 : 60001 ≤ (monoNow - lam).toNat := by omega
  have h60 : 60 ≤ (monoNow - lam).toNat / 1000 :=
    (Nat.le_div_iff_mul_le (by norm_num)).mpr (by omega)
  exact ⟨by simp [h60], by simp [onIdleEvent, h60]⟩

/-- C10 witness: the theorem applied to the concrete running manager with a
69 500 ms gap and the initial accumulator state. -/
theorem engine_events_are_hard_idle_wit :
    ((reconcileTimestamps mgrRun 100000 70000).2.2.map
        (fun ev => decide (60 ≤ ev.idleSeconds)) = some true)
    ∧ ((reconcileTimestamps mgrRun 100000 70000).2.2.map
        (fun ev => (onIdleEvent AccumState.initial ev).2) = some true) :=
  engine_events_are_hard_idle mgrRun 100000 70000 1000 500 AccumState.initial
    rfl rfl (by decide) rfl (by decide) (by decide)

end ETT
